import Mathlib

/-!
Shallow embedding of the yarp-openvr repository (OpenVRTrackersModule.cpp and
OpenVRCamera.cpp) and proofs about it.

Scalars of the C++ code (`double`, matrix and pose entries) are modelled as `ℚ`;
no floating-point arithmetic is performed by the modelled code paths (values are
only stored and copied), so this is faithful. C++ `std::string` is modelled as
`String`, `uint8_t` buffer bytes as `Nat`.

External collaborators (the OpenVR devices manager, the transform client, the
polydriver, the RPC port) are modelled as oracles: their results are inputs of
the embedded functions, exactly at the points where the C++ code consults them.
-/

namespace OpenVRTrackers

/-- Device classification, from `openvr::TrackedDeviceType` as used by the
switch in `updateModule` (HMD, Controller, GenericTracker, and the default
branch for everything else). -/
inductive TrackedDeviceType where
  | HMD
  | Controller
  | GenericTracker
  | Other
deriving DecidableEq, Repr

/-- Tracking universe origin, from `openvr::TrackingUniverseOrigin`. -/
inductive TrackingOrigin where
  | Seated
  | Standing
  | Raw
deriving DecidableEq, Repr

/-- A device pose as produced by the driver: row-major 3x3 rotation plus a
3-element position, from `openvr::Pose`. -/
structure Pose where
  rotationRowMajor : Fin 9 → ℚ
  position : Fin 3 → ℚ

/-- A 4x4 matrix of doubles, modelling `yarp::sig::Matrix` after
`resize(4, 4)`. -/
def Mat4 : Type := Fin 4 → Fin 4 → ℚ

/-- The matrix produced by `m_sendBuffer.eye()`: identity. -/
def eye : Mat4 := fun i j => if i = j then 1 else 0

/-- Single-entry assignment `m[r][c] = v` on a 4x4 matrix. -/
def mset (m : Mat4) (r c : Fin 4) (v : ℚ) : Mat4 :=
  fun i j => if i = r ∧ j = c then v else m i j

/-- The transform-name piece computed by the `tfNamePrefix` lambda in
`updateModule`: a switch on the device type whose default branch leaves the
string empty. -/
def tfNamePfx (t : TrackedDeviceType) : String :=
  match t with
  | .HMD => "/hmd/"
  | .Controller => "/controllers/"
  | .GenericTracker => "/trackers/"
  | .Other => ""

/-- The send buffer after `m_sendBuffer.eye()` followed by the twelve
assignments of `updateModule` lines 217-230: rotation entries into the top-left
3x3 block (row-major), position into the top-right column. -/
def fillSendBuffer (p : Pose) : Mat4 :=
  let b0 : Mat4 := eye
  let b1 := mset b0 0 0 (p.rotationRowMajor 0)
  let b2 := mset b1 0 1 (p.rotationRowMajor 1)
  let b3 := mset b2 0 2 (p.rotationRowMajor 2)
  let b4 := mset b3 1 0 (p.rotationRowMajor 3)
  let b5 := mset b4 1 1 (p.rotationRowMajor 4)
  let b6 := mset b5 1 2 (p.rotationRowMajor 5)
  let b7 := mset b6 2 0 (p.rotationRowMajor 6)
  let b8 := mset b7 2 1 (p.rotationRowMajor 7)
  let b9 := mset b8 2 2 (p.rotationRowMajor 8)
  let b10 := mset b9 0 3 (p.position 0)
  let b11 := mset b10 1 3 (p.position 1)
  let b12 := mset b11 2 3 (p.position 2)
  b12

/-- The devices-manager snapshot visible to one `updateModule` cycle, after
`computePoses()`: the managed device serial numbers, and the `pose`/`type`
lookups. -/
structure DevicesManager where
  managedDevices : List String
  pose : String → Option Pose
  type : String → TrackedDeviceType

/-- One `setTransform` publish call: child frame name, parent frame name, and
the matrix argument. -/
structure PublishCall where
  child : String
  parent : String
  matrix : Mat4

/-- The module state mutated by the embedded member functions: the fields of
`OpenVRTrackersModule` that the modelled code paths touch (`setName`'s name,
`m_period`, `m_baseFrame`, `m_sendBuffer`). -/
structure ModuleState where
  name : String
  period : ℚ
  baseFrame : String
  sendBuffer : Mat4

/-- The body of the device loop of `updateModule` (lines 184-236): for each
serial number, look up the pose; if absent skip, otherwise derive the child
name, refill the shared send buffer from identity, and call `setTransform`
(whose boolean result the C++ code discards). Returns the final send-buffer
content together with the list of publish calls made, in order. -/
def processDevices (mgr : DevicesManager) (baseFrame : String)
    (tf : String → String → Mat4 → Bool) :
    Mat4 → List String → Mat4 × List PublishCall
  | buf, [] => (buf, [])
  | buf, sn :: rest =>
    match mgr.pose sn with
    | none => processDevices mgr baseFrame tf buf rest
    | some p =>
      let child := tfNamePfx (mgr.type sn) ++ sn
      let buf1 := fillSendBuffer p
      let _discarded := tf child baseFrame buf1
      let res := processDevices mgr baseFrame tf buf1 rest
      (res.1, { child := child, parent := baseFrame, matrix := buf1 } :: res.2)

/-- One `updateModule` cycle: iterate the managed devices of the (already
`computePoses`-refreshed) manager snapshot, then return `true`. The returned
triple is (return value, new module state, publish calls made). -/
def updateModule (mgr : DevicesManager) (st : ModuleState)
    (tf : String → String → Mat4 → Bool) :
    Bool × ModuleState × List PublishCall :=
  let res := processDevices mgr st.baseFrame tf st.sendBuffer mgr.managedDevices
  (true, { st with sendBuffer := res.1 }, res.2)

/-- The module's `resetSeatedPosition` RPC handler: delegates to the devices
manager (whose boolean result is the oracle argument) and forwards failure;
it touches no module state. -/
def resetSeatedPosition (st : ModuleState) (managerReset : Bool) :
    Bool × ModuleState :=
  if !managerReset then (false, st) else (true, st)

/-- The module's `getPeriod`: returns `m_period`. -/
def getPeriod (st : ModuleState) : ℚ :=
  st.period

/-- Lowercasing as done in `configure` on the `vrOrigin` value:
`std::transform` with `std::tolower` over the characters (ASCII, C locale). -/
def lowerStr (s : String) : String :=
  ⟨s.data.map Char.toLower⟩

/-- Parsing of the `vrOrigin` string by `configure` lines 101-116: lowercase
the value, compare against "seated"/"standing"/"raw", and on anything else fall
back to Seated while emitting a warning. Returns the selected origin and
whether the warning branch was taken. -/
def parseVrOrigin (s : String) : TrackingOrigin × Bool :=
  let l := lowerStr s
  if l = "seated" then (TrackingOrigin.Seated, false)
  else if l = "standing" then (TrackingOrigin.Standing, false)
  else if l = "raw" then (TrackingOrigin.Raw, false)
  else (TrackingOrigin.Seated, true)

/-- The configuration options visible to `configure`. A field is `some v` when
the option is present in the resource finder with the right type (`check` and
`isString`/`isFloat64` both succeed), `none` otherwise. -/
structure Config where
  name? : Option String
  period? : Option ℚ
  tfBaseFrameName? : Option String
  tfLocal? : Option String
  tfRemote? : Option String
  vrOrigin? : Option String

/-- Results of the external calls `configure` makes, as oracles: the polydriver
open (a function of the transform client's local and remote port names), the
`IFrameTransform` view, the devices-manager initialization (a function of the
requested tracking origin), the initial seated-position reset, and the RPC port
open. -/
structure Env where
  driverOpen : String → String → Bool
  viewOk : Bool
  managerInit : TrackingOrigin → Bool
  managerReset : Bool
  rpcOpen : Bool

/-- Default values from the `openvr_trackers_module` namespace constants. -/
def DefaultPeriod : ℚ := 1 / 100

/-- Default base frame name constant. -/
def DefaultTfBaseFrameName : String := "openVR_origin"

/-- Default module name constant. -/
def ModuleName : String := "OpenVRTrackersModule"

/-- Default transform-server remote port constant. -/
def DefaultTfRemote : String := "/transformServer"

/-- The tracking origin that `configure` hands to `m_manager.initialize`:
default Seated when the option is absent, otherwise the parsed value. -/
def configuredOrigin (rf : Config) : TrackingOrigin :=
  match rf.vrOrigin? with
  | none => TrackingOrigin.Seated
  | some s => (parseVrOrigin s).1

/-- The name `configure` passes to `setName`: the option when present,
otherwise the module-name constant. -/
def effectiveName (rf : Config) : String :=
  match rf.name? with
  | none => ModuleName
  | some n => n

/-- The period `configure` stores in `m_period`: the option when present (and
a float), otherwise the 0.010 default. -/
def effectivePeriod (rf : Config) : ℚ :=
  match rf.period? with
  | none => DefaultPeriod
  | some p => p

/-- The base frame name `configure` stores in `m_baseFrame`. -/
def effectiveBaseFrame (rf : Config) : String :=
  match rf.tfBaseFrameName? with
  | none => DefaultTfBaseFrameName
  | some b => b

/-- The transform client's local port name: the option when present, otherwise
"/" ++ getName() ++ "/tf". -/
def effectiveTfLocal (rf : Config) : String :=
  match rf.tfLocal? with
  | none => "/" ++ effectiveName rf ++ "/tf"
  | some l => l

/-- The transform client's remote port name. -/
def effectiveTfRemote (rf : Config) : String :=
  match rf.tfRemote? with
  | none => DefaultTfRemote
  | some r => r

/-- The module's `configure` (OpenVRTrackersModule.cpp lines 24-168): read the
options into module fields (with defaults), then open the transform client,
view the interface, reset the send buffer to identity, initialize the devices
manager with the selected origin, reset the seated position once, and open the
RPC port; each external step's failure returns `false` at that point, leaving
the assignments already made in place. -/
def configure (st : ModuleState) (rf : Config) (env : Env) :
    Bool × ModuleState :=
  let st := { st with name := effectiveName rf }
  let st := { st with period := effectivePeriod rf }
  let st := { st with baseFrame := effectiveBaseFrame rf }
  let tfLocal := effectiveTfLocal rf
  let tfRemote := effectiveTfRemote rf
  let vrOrigin := configuredOrigin rf
  if !env.driverOpen tfLocal tfRemote then (false, st)
  else if !env.viewOk then (false, st)
  else
    let st := { st with sendBuffer := eye }
    if !env.managerInit vrOrigin then (false, st)
    else if !env.managerReset then (false, st)
    else if !env.rpcOpen then (false, st)
    else (true, st)

end OpenVRTrackers

namespace OpenVRCamera

/-- The fixed-alpha masking of one RGBA pixel at byte offset `p` of the frame
buffer, from `getImage` lines 221-223: each of r, g, b is the corresponding
buffer byte when the alpha byte at `p+3` is positive, and 0 otherwise. -/
def maskPixel (buf : Nat → Nat) (p : Nat) : Nat × Nat × Nat :=
  (if buf (p + 3) > 0 then buf p else 0,
   if buf (p + 3) > 0 then buf (p + 1) else 0,
   if buf (p + 3) > 0 then buf (p + 2) else 0)

/-- The inner `x` loop of `getImage`: one image row of `w` pixels starting at
byte offset `p`, the pointer advancing by 4 bytes per pixel. -/
def renderRow (buf : Nat → Nat) (p : Nat) : Nat → List (Nat × Nat × Nat)
  | 0 => []
  | w + 1 => maskPixel buf p :: renderRow buf (p + 4) w

/-- The outer `y` loop of `getImage`: `h` rows of `w` pixels, the frame-buffer
pointer running continuously (row `y` starts at `p + 4*w*y`). -/
def renderImage (buf : Nat → Nat) (p : Nat) (w : Nat) :
    Nat → List (List (Nat × Nat × Nat))
  | 0 => []
  | h + 1 => renderRow buf p w :: renderImage buf (p + 4 * w) w h

/-- The pixel-conversion part of `getImage` (lines 217-226) on a newly fetched
frame buffer of `w` by `h` RGBA pixels: the produced image as rows of (r,g,b)
triples. -/
def getImage (buf : Nat → Nat) (w h : Nat) : List (List (Nat × Nat × Nat)) :=
  renderImage buf 0 w h

end OpenVRCamera

namespace OpenVRTrackers

/-- Spec-side description of the published matrix: identity except for the
row-major rotation in the top-left 3x3 block and the translation in the
top-right column; bottom row [0,0,0,1], all other cells 0. -/
def specPoseMatrix (p : Pose) : Mat4 := fun i j =>
  if h : i.val < 3 ∧ j.val < 3 then
    p.rotationRowMajor ⟨3 * i.val + j.val, by omega⟩
  else if h2 : i.val < 3 ∧ j.val = 3 then p.position ⟨i.val, h2.1⟩
  else if i.val = 3 ∧ j.val = 3 then 1
  else 0

/-- The publish call that the device loop emits for a present-pose device. -/
def callFor (mgr : DevicesManager) (bf : String) (sn : String) (p : Pose) :
    PublishCall :=
  { child := tfNamePfx (mgr.type sn) ++ sn
    parent := bf
    matrix := fillSendBuffer p }

theorem processDevices_calls (mgr : DevicesManager) (bf : String)
    (tf : String → String → Mat4 → Bool) :
    ∀ (l : List String) (buf : Mat4),
      (processDevices mgr bf tf buf l).2 =
        l.filterMap (fun sn => (mgr.pose sn).map (callFor mgr bf sn)) := by
  intro l
  induction l with
  | nil => intro buf; simp [processDevices]
  | cons sn rest ih =>
    intro buf
    cases hp : mgr.pose sn with
    | none => simp [processDevices, hp, ih]
    | some p => simp [processDevices, hp, ih, callFor]

/-- Concrete fixtures used by the witness theorems below. -/
def p0 : Pose :=
  { rotationRowMajor := fun k => (k : ℚ), position := fun k => (k : ℚ) + 10 }

/-- Concrete module state fixture. -/
def st0 : ModuleState :=
  { name := "n", period := 1, baseFrame := "base", sendBuffer := eye }

/-- Transform-client oracle fixture whose publishes all succeed. -/
def tf0 : String → String → Mat4 → Bool := fun _ _ _ => true

/-- Transform-client oracle fixture whose publishes all fail. -/
def tfFail : String → String → Mat4 → Bool := fun _ _ _ => false

/-- Manager snapshot fixture with a single tracked HMD. -/
def mgr1 : DevicesManager :=
  { managedDevices := ["dev0"]
    pose := fun _ => some p0
    type := fun _ => TrackedDeviceType.HMD }

/-- Manager snapshot fixture with three devices of which the middle one has no
pose this cycle. -/
def mgr2 : DevicesManager :=
  { managedDevices := ["devA", "gone", "devB"]
    pose := fun sn => if sn = "gone" then none else some p0
    type := fun _ => TrackedDeviceType.GenericTracker }

/-- C2: the published transform name is a pure function of device type and id.
HMD maps to "/hmd/" ++ id, Controller to "/controllers/" ++ id, GenericTracker
to "/trackers/" ++ id; an unrecognized type yields the bare id (empty prefix,
no leading slash — amended from the claim's "/" ++ id). Every cycle's published
child names are exactly these, one per present-pose device. -/
theorem C2_transformNames :
    (∀ sn : String, tfNamePfx TrackedDeviceType.HMD ++ sn = "/hmd/" ++ sn) ∧
    (∀ sn : String,
      tfNamePfx TrackedDeviceType.Controller ++ sn = "/controllers/" ++ sn) ∧
    (∀ sn : String,
      tfNamePfx TrackedDeviceType.GenericTracker ++ sn = "/trackers/" ++ sn) ∧
    (∀ sn : String, tfNamePfx TrackedDeviceType.Other ++ sn = sn) ∧
    (∀ (mgr : DevicesManager) (st : ModuleState) tf,
      ((updateModule mgr st tf).2.2).map PublishCall.child =
        mgr.managedDevices.filterMap
          (fun sn => (mgr.pose sn).map
            (fun _ => tfNamePfx (mgr.type sn) ++ sn))) := by
  refine ⟨fun sn => rfl, fun sn => rfl, fun sn => rfl, ?_, ?_⟩
  · intro sn
    simp [tfNamePfx]
  · intro mgr st tf
    simp only [updateModule, processDevices_calls, List.map_filterMap]
    congr 1
    funext sn
    cases mgr.pose sn <;> simp [callFor]

/-- C2 counterexample: for an unrecognized device type the code publishes the
bare id, not "/" ++ id as the claim states. -/
theorem C2_cex :
    ¬ (tfNamePfx TrackedDeviceType.Other ++ "abc" = "/" ++ "abc") := by
  decide

/-- C3: a device whose pose is absent in a cycle produces no publish call and
raises no error; the cycle still processes every other device: the cycle's
calls are those of the devices before it followed by those of the devices
after it, and `updateModule` returns true. -/
theorem C3_absentPoseSkipped (mgr : DevicesManager) (st : ModuleState)
    (tf : String → String → Mat4 → Bool) (l1 l2 : List String) (sn : String)
    (hdev : mgr.managedDevices = l1 ++ sn :: l2)
    (habs : mgr.pose sn = none) :
    (updateModule mgr st tf).1 = true ∧
    (updateModule mgr st tf).2.2 =
      (processDevices mgr st.baseFrame tf st.sendBuffer l1).2 ++
      (processDevices mgr st.baseFrame tf st.sendBuffer l2).2 := by
  refine ⟨rfl, ?_⟩
  simp [updateModule, processDevices_calls, hdev, habs]

/-- C3 witness: the concrete three-device snapshot where the middle device is
untracked. -/
theorem C3_witness :
    (updateModule mgr2 st0 tf0).1 = true ∧
    (updateModule mgr2 st0 tf0).2.2 =
      (processDevices mgr2 st0.baseFrame tf0 st0.sendBuffer ["devA"]).2 ++
      (processDevices mgr2 st0.baseFrame tf0 st0.sendBuffer ["devB"]).2 :=
  C3_absentPoseSkipped mgr2 st0 tf0 ["devA"] ["devB"] "gone" rfl
    (by simp [mgr2])

/-- C5: a failing `setTransform` never aborts the cycle or the module: the
return value is true and the set of publish calls is the same for every
transform-client result oracle, namely one call per present-pose device in
order. -/
theorem C5_publishFailureNonFatal (mgr : DevicesManager) (st : ModuleState) :
    ∀ tf tf2 : String → String → Mat4 → Bool,
      (updateModule mgr st tf).1 = true ∧
      (updateModule mgr st tf).2.2 = (updateModule mgr st tf2).2.2 ∧
      (updateModule mgr st tf).2.2 =
        mgr.managedDevices.filterMap
          (fun sn => (mgr.pose sn).map (callFor mgr st.baseFrame sn)) := by
  intro tf tf2
  refine ⟨rfl, ?_, ?_⟩ <;> simp [updateModule, processDevices_calls]

theorem fillSendBuffer_eq_spec (p : Pose) (i j : Fin 4) :
    fillSendBuffer p i j = specPoseMatrix p i j := by
  fin_cases i <;> fin_cases j <;> rfl

/-- C1: every matrix handed to a publish call in any cycle is the identity
matrix overwritten with the pose's row-major rotation in the top-left 3x3
block and its translation in the top-right column: entry (i,j) is
rotationRowMajor[3*i+j] for i,j < 3, position[i] for j = 3 and i < 3, 1 at
(3,3), and 0 elsewhere — independently of the send-buffer content the cycle
started with. -/
theorem C1_publishedMatrixShape (mgr : DevicesManager) (st : ModuleState)
    (tf : String → String → Mat4 → Bool) (c : PublishCall)
    (hc : c ∈ (updateModule mgr st tf).2.2) :
    ∃ sn p, sn ∈ mgr.managedDevices ∧ mgr.pose sn = some p ∧
      ∀ i j : Fin 4, c.matrix i j = specPoseMatrix p i j := by
  rw [updateModule] at hc
  simp only [processDevices_calls, List.mem_filterMap] at hc
  obtain ⟨sn, hmem, heq⟩ := hc
  obtain ⟨p, hp, hcall⟩ := Option.map_eq_some'.mp heq
  refine ⟨sn, p, hmem, hp, ?_⟩
  intro i j
  rw [← hcall]
  exact fillSendBuffer_eq_spec p i j

/-- Publish call fixture: the single call of the one-HMD snapshot. -/
def call1 : PublishCall :=
  { child := "/hmd/" ++ "dev0", parent := "base", matrix := fillSendBuffer p0 }

/-- C1 witness: the one-HMD snapshot's single publish call has the claimed
matrix shape. -/
theorem C1_witness :
    ∃ sn p, sn ∈ mgr1.managedDevices ∧ mgr1.pose sn = some p ∧
      ∀ i j : Fin 4, call1.matrix i j = specPoseMatrix p i j :=
  C1_publishedMatrixShape mgr1 st0 tf0 call1
    (by
      rw [show (updateModule mgr1 st0 tf0).2.2 = [call1] from rfl]
      exact List.mem_singleton.mpr rfl)

/-- C8: the reset-seated-position command forwards the devices manager's
boolean result to the caller (failure when the manager fails, in particular
when it is uninitialized) and leaves the module state untouched in both
cases. -/
theorem C8_resetForwardsManagerResult (st : ModuleState) (managerReset : Bool) :
    (resetSeatedPosition st managerReset).1 = managerReset ∧
    (resetSeatedPosition st managerReset).2 = st := by
  cases managerReset <;> simp [resetSeatedPosition]

theorem configure_fst (st : ModuleState) (rf : Config) (env : Env) :
    (configure st rf env).1 =
      (env.driverOpen (effectiveTfLocal rf) (effectiveTfRemote rf)
        && (env.viewOk
          && (env.managerInit (configuredOrigin rf)
            && (env.managerReset && env.rpcOpen)))) := by
  cases h1 : env.driverOpen (effectiveTfLocal rf) (effectiveTfRemote rf) <;>
    cases h2 : env.viewOk <;>
    cases h3 : env.managerInit (configuredOrigin rf) <;>
    cases h4 : env.managerReset <;>
    cases h5 : env.rpcOpen <;>
    simp [configure, h1, h2, h3, h4, h5]

theorem configure_snd_period (st : ModuleState) (rf : Config) (env : Env) :
    (configure st rf env).2.period = effectivePeriod rf := by
  cases h1 : env.driverOpen (effectiveTfLocal rf) (effectiveTfRemote rf) <;>
    cases h2 : env.viewOk <;>
    cases h3 : env.managerInit (configuredOrigin rf) <;>
    cases h4 : env.managerReset <;>
    cases h5 : env.rpcOpen <;>
    simp [configure, h1, h2, h3, h4, h5]

/-- Environment fixture where every external step succeeds. -/
def envOK : Env :=
  { driverOpen := fun _ _ => true
    viewOk := true
    managerInit := fun _ => true
    managerReset := true
    rpcOpen := true }

/-- Environment fixture where the transform-client polydriver open fails. -/
def envNoDriver : Env :=
  { driverOpen := fun _ _ => false
    viewOk := true
    managerInit := fun _ => true
    managerReset := true
    rpcOpen := true }

/-- Config fixture: only `period` present, set to 0.25. -/
def cfgP : Config :=
  { name? := none
    period? := some (1 / 4)
    tfBaseFrameName? := none
    tfLocal? := none
    tfRemote? := none
    vrOrigin? := none }

/-- C4 (amended): whenever any external sub-step of configure fails (the
transform-client open, the interface view, the manager initialization, the
initial seated-position reset, or the RPC port open), configure returns
failure — though option-derived fields assigned before the failing step (name,
period, base frame, send buffer) keep their new values. -/
theorem C4_configureFailureAborts (st : ModuleState) (rf : Config) (env : Env)
    (h : env.driverOpen (effectiveTfLocal rf) (effectiveTfRemote rf) = false
      ∨ env.viewOk = false
      ∨ env.managerInit (configuredOrigin rf) = false
      ∨ env.managerReset = false
      ∨ env.rpcOpen = false) :
    (configure st rf env).1 = false := by
  rw [configure_fst]
  rcases h with h | h | h | h | h <;> simp [h]

/-- C4 witness: with the polydriver open failing, configure fails. -/
theorem C4_witness : (configure st0 cfgP envNoDriver).1 = false :=
  C4_configureFailureAborts st0 cfgP envNoDriver (Or.inl rfl)

/-- C4 counterexample: the claim's "no module state mutated by the aborted
transition" is false: with a configured period of 0.25 and a failing
transform-client open, configure returns failure yet the stored period has
already been changed from its prior value 1. -/
theorem C4_cex :
    (configure st0 cfgP envNoDriver).1 = false ∧
    (configure st0 cfgP envNoDriver).2.period ≠ st0.period := by
  refine ⟨rfl, ?_⟩
  rw [configure_snd_period]
  norm_num [effectivePeriod, cfgP, st0]

/-- C6: after a completed configuration whose effective period is P (the
`period` option's value when present and a float, the 0.010 default
otherwise), `getPeriod` returns exactly P. -/
theorem C6_getPeriodAfterConfigure (st : ModuleState) (rf : Config) (env : Env)
    (P : ℚ) (hP : P = effectivePeriod rf) (_hpos : 0 < P)
    (_hok : (configure st rf env).1 = true) :
    getPeriod (configure st rf env).2 = P := by
  rw [getPeriod, configure_snd_period, hP]

/-- C6 witness: configuring with period 0.25 and all external steps succeeding,
`getPeriod` returns 0.25. -/
theorem C6_witness : getPeriod (configure st0 cfgP envOK).2 = 1 / 4 :=
  C6_getPeriodAfterConfigure st0 cfgP envOK (1 / 4) (by norm_num [effectivePeriod, cfgP])
    (by norm_num) rfl

theorem effectiveName_setOrigin (rf : Config) (o : Option String) :
    effectiveName { rf with vrOrigin? := o } = effectiveName rf := rfl

theorem effectivePeriod_setOrigin (rf : Config) (o : Option String) :
    effectivePeriod { rf with vrOrigin? := o } = effectivePeriod rf := rfl

theorem effectiveBaseFrame_setOrigin (rf : Config) (o : Option String) :
    effectiveBaseFrame { rf with vrOrigin? := o } = effectiveBaseFrame rf := rfl

theorem effectiveTfLocal_setOrigin (rf : Config) (o : Option String) :
    effectiveTfLocal { rf with vrOrigin? := o } = effectiveTfLocal rf := rfl

theorem effectiveTfRemote_setOrigin (rf : Config) (o : Option String) :
    effectiveTfRemote { rf with vrOrigin? := o } = effectiveTfRemote rf := rfl

/-- C7: `vrOrigin` is parsed case-insensitively (the parse depends on the
value only through its lowercasing): values lowercasing to "seated",
"standing" or "raw" select the corresponding origin without warning, and any
other value selects Seated with a warning while configure behaves exactly as
if "seated" had been given (so the unrecognized value alone never makes
configure fail). -/
theorem C7_vrOriginParsing :
    (∀ s t : String, lowerStr s = lowerStr t → parseVrOrigin s = parseVrOrigin t) ∧
    (∀ s : String, lowerStr s = "seated" →
      parseVrOrigin s = (TrackingOrigin.Seated, false)) ∧
    (∀ s : String, lowerStr s = "standing" →
      parseVrOrigin s = (TrackingOrigin.Standing, false)) ∧
    (∀ s : String, lowerStr s = "raw" →
      parseVrOrigin s = (TrackingOrigin.Raw, false)) ∧
    (∀ s : String, lowerStr s ≠ "seated" → lowerStr s ≠ "standing" →
      lowerStr s ≠ "raw" →
      parseVrOrigin s = (TrackingOrigin.Seated, true) ∧
      ∀ (st : ModuleState) (rf : Config) (env : Env),
        configure st { rf with vrOrigin? := some s } env =
          configure st { rf with vrOrigin? := some "seated" } env) := by
  refine ⟨?_, ?_, ?_, ?_, ?_⟩
  · intro s t h
    simp [parseVrOrigin, h]
  · intro s h
    simp [parseVrOrigin, h]
  · intro s h
    simp [parseVrOrigin, h]
  · intro s h
    simp [parseVrOrigin, h]
  · intro s h1 h2 h3
    have hparse : parseVrOrigin s = (TrackingOrigin.Seated, true) := by
      simp [parseVrOrigin, h1, h2, h3]
    refine ⟨hparse, ?_⟩
    intro st rf env
    have hseated : parseVrOrigin "seated" = (TrackingOrigin.Seated, false) := by
      decide
    simp [configure, configuredOrigin, hparse, hseated,
      effectiveName_setOrigin, effectivePeriod_setOrigin,
      effectiveBaseFrame_setOrigin, effectiveTfLocal_setOrigin,
      effectiveTfRemote_setOrigin]

/-- C7 witness: the unrecognized value "SideWays" selects Seated with a
warning, and configuration proceeds exactly as with "seated". -/
theorem C7_witness :
    parseVrOrigin "SideWays" = (TrackingOrigin.Seated, true) ∧
    configure st0 { cfgP with vrOrigin? := some "SideWays" } envOK =
      configure st0 { cfgP with vrOrigin? := some "seated" } envOK := by
  have h := C7_vrOriginParsing.2.2.2.2 "SideWays" (by decide) (by decide)
    (by decide)
  exact ⟨h.1, h.2 st0 cfgP envOK⟩

end OpenVRTrackers

namespace OpenVRCamera

theorem maskPixel_eq (buf : Nat → Nat) (q : Nat) :
    maskPixel buf q =
      (if buf (q + 3) = 0 then (0, 0, 0)
       else (buf q, buf (q + 1), buf (q + 2))) := by
  by_cases h : buf (q + 3) = 0 <;>
    simp [maskPixel, h, Nat.pos_iff_ne_zero]

theorem renderRow_get? (buf : Nat → Nat) :
    ∀ (w p x : Nat), x < w →
      (renderRow buf p w)[x]? = some (maskPixel buf (p + 4 * x)) := by
  intro w
  induction w with
  | zero => intro p x hx; omega
  | succ w ih =>
    intro p x hx
    cases x with
    | zero => simp [renderRow]
    | succ x =>
      have hx' : x < w := by omega
      have := ih (p + 4) x hx'
      rw [renderRow, List.getElem?_cons_succ, this]
      congr 2
      omega

theorem renderImage_get? (buf : Nat → Nat) (w : Nat) :
    ∀ (h p y : Nat), y < h →
      (renderImage buf p w h)[y]? = some (renderRow buf (p + 4 * w * y) w) := by
  intro h
  induction h with
  | zero => intro p y hy; omega
  | succ h ih =>
    intro p y hy
    cases y with
    | zero => simp [renderImage]
    | succ y =>
      have hy' : y < h := by omega
      rw [renderImage, List.getElem?_cons_succ, ih (p + 4 * w) y hy']
      have harith : p + 4 * w + 4 * w * y = p + 4 * w * (y + 1) := by ring
      rw [harith]

/-- C10: in `getImage`'s pixel conversion, the output pixel at column x and
row y of a w-by-h RGBA frame buffer is (0,0,0) when the pixel's alpha byte
(at offset 4*(y*w+x)+3) is zero, and otherwise equals the buffer's r, g, b
bytes at offsets 4*(y*w+x), +1, +2. -/
theorem C10_alphaMasking (buf : Nat → Nat) (w h x y : Nat)
    (hx : x < w) (hy : y < h) :
    ((getImage buf w h)[y]?).bind (fun row => row[x]?) =
      some (if buf (4 * (y * w + x) + 3) = 0 then (0, 0, 0)
            else (buf (4 * (y * w + x)), buf (4 * (y * w + x) + 1),
                  buf (4 * (y * w + x) + 2))) := by
  rw [getImage, renderImage_get? buf w h 0 y hy, Option.some_bind,
    renderRow_get? buf w (0 + 4 * w * y) x hx, maskPixel_eq]
  have harith : 0 + 4 * w * y + 4 * x = 4 * (y * w + x) := by ring
  rw [harith]

/-- C10 witness: a concrete 2x2 frame buffer whose byte at index i is i; the
pixel at (1,1) has alpha byte 15 > 0 and keeps its r, g, b bytes 12, 13, 14. -/
theorem C10_witness :
    ((getImage (fun i => i) 2 2)[1]?).bind (fun row => row[1]?) =
      some (if (fun i => i) (4 * (1 * 2 + 1) + 3) = 0 then (0, 0, 0)
            else ((fun i => i) (4 * (1 * 2 + 1)),
                  (fun i => i) (4 * (1 * 2 + 1) + 1),
                  (fun i => i) (4 * (1 * 2 + 1) + 2))) :=
  C10_alphaMasking (fun i => i) 2 2 1 1 (by decide) (by decide)

end OpenVRCamera
